import Mathlib

/-!
Verification of the transfer-processing core of a small ledger service
(`app/main.py`, `app/models.py`, `app/schemas.py`).

The service state (the database) is modelled as a `LedgerState`: the rows of
the `accounts` and `transactions` tables, plus the autoincrement counters.
Monetary values are modelled as `Rat` (the spec calls them signed decimals).
Wall-clock instants are modelled as `Nat` ticks.

One detail of the source that the model keeps faithfully: the SQLAlchemy
column declaration `registered_time = Column(DateTime, default=datetime.now())`
calls `datetime.now()` once, when `app/models.py` is imported, so every row's
default `registered_time` is that single module-load instant.  The model
therefore threads two clocks through `process_transaction`: `moduleLoadTime`,
fixed across all calls (the value baked into the column default), and `now`,
the per-call clock used for `executed_time`.

The final `db.commit()` of the success path can fail at storage level; the
code catches any exception there, rolls back, and raises a 500.  The model
exposes this with a `commitOk : Bool` parameter: `false` means that commit
raises, and the uncommitted balance/transaction mutations are discarded.
-/

/-- Row of the `accounts` table (`AccountModel` in `app/models.py`). -/
structure AccountModel where
  id : Nat
  name : String
  available_cash : Rat
deriving Repr, DecidableEq

/-- Row of the `transactions` table (`TransactionModel` in `app/models.py`). -/
structure TransactionModel where
  id : Nat
  cash_amount : Rat
  source_account_id : Nat
  destination_account_id : Nat
  registered_time : Nat
  executed_time : Option Nat
  success : Bool
deriving Repr, DecidableEq

/-- Request body of `POST /transactions` (`CreateTransaction` in `app/schemas.py`). -/
structure CreateTransaction where
  cash_amount : Rat
  source_account_id : Nat
  destination_account_id : Nat
deriving Repr, DecidableEq

/-- Request body of `POST /accounts` (`CreateAccount` in `app/schemas.py`). -/
structure CreateAccount where
  name : String
  available_cash : Rat
deriving Repr, DecidableEq

/-- The committed database state: both tables plus autoincrement counters. -/
structure LedgerState where
  accounts : List AccountModel
  transactions : List TransactionModel
  nextAccountId : Nat
  nextTransactionId : Nat
deriving Repr, DecidableEq

/-- The error taxonomy of `process_transaction` (each `raise HTTPException`). -/
inductive TransferError where
  | InvalidAmount
  | SameAccount
  | SourceNotFound
  | DestinationNotFound
  | InsufficientFunds
  | InternalError
deriving Repr, DecidableEq

/-- HTTP status attached to each error in `app/main.py`. -/
def statusCode : TransferError → Nat
  | .InvalidAmount => 400
  | .SameAccount => 400
  | .SourceNotFound => 404
  | .DestinationNotFound => 404
  | .InsufficientFunds => 400
  | .InternalError => 500

/-- Result of one call to `process_transaction`: the returned record or error. -/
inductive Outcome where
  | ok : TransactionModel → Outcome
  | fail : TransferError → Outcome
deriving Repr, DecidableEq

/-- What one call to `process_transaction` produces: the committed state after
the call, the HTTP-level outcome, and the account ids in the order in which
`with_for_update()` row locks were acquired during the call. -/
structure ProcessResult where
  db : LedgerState
  outcome : Outcome
  locks : List Nat
deriving Repr, DecidableEq

/-- `db.query(AccountModel).filter(AccountModel.id == accountId).one()`:
point lookup of an account row by primary key. -/
def findAccount (accounts : List AccountModel) (accountId : Nat) : Option AccountModel :=
  accounts.find? (fun a => a.id == accountId)

/-- The step-1 intent row: `TransactionModel(**transaction.model_dump(), success=False)`.
`registered_time` takes the column default, which is the module-load instant;
`executed_time` takes its default `None`, `id` the autoincrement counter. -/
def intentRow (moduleLoadTime : Nat) (req : CreateTransaction) (db : LedgerState) :
    TransactionModel :=
  { id := db.nextTransactionId
    cash_amount := req.cash_amount
    source_account_id := req.source_account_id
    destination_account_id := req.destination_account_id
    registered_time := moduleLoadTime
    executed_time := none
    success := false }

/-- `db.add(new_transaction); db.commit()` for the step-1 intent row. -/
def recordIntent (moduleLoadTime : Nat) (req : CreateTransaction) (db : LedgerState) :
    LedgerState :=
  { db with
    transactions := db.transactions ++ [intentRow moduleLoadTime req db]
    nextTransactionId := db.nextTransactionId + 1 }

/-- The effect of `source_account.available_cash -= amount` and
`destination_account.available_cash += amount` on one account row. -/
def creditDebit (src dst : Nat) (amt : Rat) (a : AccountModel) : AccountModel :=
  { a with available_cash :=
      if a.id = src then a.available_cash - amt
      else if a.id = dst then a.available_cash + amt
      else a.available_cash }

/-- The effect of `new_transaction.success = True;
new_transaction.executed_time = datetime.now()` on one transaction row. -/
def markExecuted (txId now : Nat) (t : TransactionModel) : TransactionModel :=
  if t.id = txId then { t with success := true, executed_time := some now } else t

/-- `process_transaction` from `app/main.py`, step for step:
1. persist the intent row (committed immediately);
2. `if transaction.cash_amount < 0` → 400 InvalidAmount;
3. `if source_account_id == destination_account_id` → 400 SameAccount;
4. lock + look up the source account → 404 SourceNotFound if absent;
5. lock + look up the destination account → 404 DestinationNotFound if absent;
6. `if source_account.available_cash >= transaction.cash_amount`: debit,
   credit, mark the row executed and commit (a storage fault there rolls
   back to the step-1 state and yields 500 InternalError);
   else → 400 InsufficientFunds. -/
def process_transaction (moduleLoadTime now : Nat) (commitOk : Bool)
    (req : CreateTransaction) (db : LedgerState) : ProcessResult :=
  let row := intentRow moduleLoadTime req db
  let db1 := recordIntent moduleLoadTime req db
  if req.cash_amount < 0 then
    ⟨db1, .fail .InvalidAmount, []⟩
  else if req.source_account_id = req.destination_account_id then
    ⟨db1, .fail .SameAccount, []⟩
  else
    match findAccount db1.accounts req.source_account_id with
    | none => ⟨db1, .fail .SourceNotFound, []⟩
    | some source_account =>
      match findAccount db1.accounts req.destination_account_id with
      | none => ⟨db1, .fail .DestinationNotFound, [req.source_account_id]⟩
      | some _ =>
        if source_account.available_cash ≥ req.cash_amount then
          if commitOk then
            ⟨{ db1 with
                accounts := db1.accounts.map
                  (creditDebit req.source_account_id req.destination_account_id
                    req.cash_amount)
                transactions := db1.transactions.map (markExecuted row.id now) },
              .ok { row with success := true, executed_time := some now },
              [req.source_account_id, req.destination_account_id]⟩
          else
            ⟨db1, .fail .InternalError,
              [req.source_account_id, req.destination_account_id]⟩
        else
          ⟨db1, .fail .InsufficientFunds,
            [req.source_account_id, req.destination_account_id]⟩

/-- `create_account` from `app/main.py`: builds the row from the request body
unchanged (no validation of `available_cash`) and commits it. -/
def create_account (acc : CreateAccount) (db : LedgerState) : LedgerState :=
  { db with
    accounts := db.accounts ++
      [{ id := db.nextAccountId, name := acc.name, available_cash := acc.available_cash }]
    nextAccountId := db.nextAccountId + 1 }

/-- Balance of the account with the given id, if present. -/
def getBalance (db : LedgerState) (accountId : Nat) : Option Rat :=
  (findAccount db.accounts accountId).map (fun a => a.available_cash)

/-- Sum of `available_cash` over a list of account rows. -/
def cashSum (l : List AccountModel) : Rat :=
  (l.map (fun a => a.available_cash)).sum

/-- Sum of all account balances in the committed state. -/
def totalBalance (db : LedgerState) : Rat :=
  cashSum db.accounts

/-- A sequence of transfer requests, each with its own call-time clock and
commit fate, applied in order to the committed state. -/
def runTransfers (moduleLoadTime : Nat) (steps : List (Nat × Bool × CreateTransaction))
    (db : LedgerState) : LedgerState :=
  steps.foldl (fun s step => (process_transaction moduleLoadTime step.1 step.2.1 step.2.2 s).db) db

/-- Primary-key integrity of the `accounts` table: ids are pairwise distinct. -/
abbrev AccountIdsNodup (db : LedgerState) : Prop :=
  (db.accounts.map (fun a => a.id)).Nodup

/-- Autoincrement integrity of the `transactions` table: every existing row's
id is below the counter, so the next assigned id is fresh. -/
abbrev TxIdsFresh (db : LedgerState) : Prop :=
  ∀ t ∈ db.transactions, t.id < db.nextTransactionId

/-- The two demo accounts of the spec scenarios: A with 1000, B with 500. -/
def demoDb : LedgerState :=
  { accounts := [{ id := 1, name := "A", available_cash := 1000 },
                 { id := 2, name := "B", available_cash := 500 }]
    transactions := []
    nextAccountId := 3
    nextTransactionId := 0 }

/-- Four demo accounts, for scenarios touching two disjoint account pairs. -/
def demoDb4 : LedgerState :=
  { accounts := [{ id := 1, name := "A", available_cash := 1000 },
                 { id := 2, name := "B", available_cash := 500 },
                 { id := 3, name := "C", available_cash := 300 },
                 { id := 4, name := "D", available_cash := 100 }]
    transactions := []
    nextAccountId := 5
    nextTransactionId := 0 }

/-! ## Branch characterization of `process_transaction`

One lemma per exit path of the function, each stating the exact
`ProcessResult` the code produces on that path. -/

theorem recordIntent_accounts (mlt : Nat) (req : CreateTransaction) (db : LedgerState) :
    (recordIntent mlt req db).accounts = db.accounts := rfl

/-- Exit path of `if transaction.cash_amount < 0`. -/
theorem pt_invalidAmount (mlt now : Nat) (ok : Bool) (req : CreateTransaction)
    (db : LedgerState) (h1 : req.cash_amount < 0) :
    process_transaction mlt now ok req db =
      ⟨recordIntent mlt req db, .fail .InvalidAmount, []⟩ := by
  simp [process_transaction, h1]

/-- Exit path of `if source_account_id == destination_account_id`. -/
theorem pt_sameAccount (mlt now : Nat) (ok : Bool) (req : CreateTransaction)
    (db : LedgerState) (h1 : ¬ req.cash_amount < 0)
    (h2 : req.source_account_id = req.destination_account_id) :
    process_transaction mlt now ok req db =
      ⟨recordIntent mlt req db, .fail .SameAccount, []⟩ := by
  simp [process_transaction, h1, h2]

/-- Exit path of the failed source-account lookup. -/
theorem pt_sourceMissing (mlt now : Nat) (ok : Bool) (req : CreateTransaction)
    (db : LedgerState) (h1 : ¬ req.cash_amount < 0)
    (h2 : req.source_account_id ≠ req.destination_account_id)
    (h3 : findAccount db.accounts req.source_account_id = none) :
    process_transaction mlt now ok req db =
      ⟨recordIntent mlt req db, .fail .SourceNotFound, []⟩ := by
  simp [process_transaction, h1, h2, recordIntent_accounts, h3]

/-- Exit path of the failed destination-account lookup; the source row lock
was already acquired. -/
theorem pt_destMissing (mlt now : Nat) (ok : Bool) (req : CreateTransaction)
    (db : LedgerState) (s : AccountModel) (h1 : ¬ req.cash_amount < 0)
    (h2 : req.source_account_id ≠ req.destination_account_id)
    (h3 : findAccount db.accounts req.source_account_id = some s)
    (h4 : findAccount db.accounts req.destination_account_id = none) :
    process_transaction mlt now ok req db =
      ⟨recordIntent mlt req db, .fail .DestinationNotFound, [req.source_account_id]⟩ := by
  simp [process_transaction, h1, h2, recordIntent_accounts, h3, h4]

/-- Exit path of the `else` of the funds check; both row locks held. -/
theorem pt_insufficient (mlt now : Nat) (ok : Bool) (req : CreateTransaction)
    (db : LedgerState) (s d : AccountModel) (h1 : ¬ req.cash_amount < 0)
    (h2 : req.source_account_id ≠ req.destination_account_id)
    (h3 : findAccount db.accounts req.source_account_id = some s)
    (h4 : findAccount db.accounts req.destination_account_id = some d)
    (h5 : ¬ s.available_cash ≥ req.cash_amount) :
    process_transaction mlt now ok req db =
      ⟨recordIntent mlt req db, .fail .InsufficientFunds,
        [req.source_account_id, req.destination_account_id]⟩ := by
  simp [process_transaction, h1, h2, recordIntent_accounts, h3, h4, h5]

/-- Exit path of a storage fault in the final `db.commit()`: the rollback
discards the balance and transaction mutations. -/
theorem pt_commitFault (mlt now : Nat) (req : CreateTransaction)
    (db : LedgerState) (s d : AccountModel) (h1 : ¬ req.cash_amount < 0)
    (h2 : req.source_account_id ≠ req.destination_account_id)
    (h3 : findAccount db.accounts req.source_account_id = some s)
    (h4 : findAccount db.accounts req.destination_account_id = some d)
    (h5 : s.available_cash ≥ req.cash_amount) :
    process_transaction mlt now false req db =
      ⟨recordIntent mlt req db, .fail .InternalError,
        [req.source_account_id, req.destination_account_id]⟩ := by
  simp [process_transaction, h1, h2, recordIntent_accounts, h3, h4, h5]

/-- The success path: debit, credit, mark the intent row executed, commit. -/
theorem pt_success (mlt now : Nat) (req : CreateTransaction)
    (db : LedgerState) (s d : AccountModel) (h1 : ¬ req.cash_amount < 0)
    (h2 : req.source_account_id ≠ req.destination_account_id)
    (h3 : findAccount db.accounts req.source_account_id = some s)
    (h4 : findAccount db.accounts req.destination_account_id = some d)
    (h5 : s.available_cash ≥ req.cash_amount) :
    process_transaction mlt now true req db =
      ⟨{ accounts := db.accounts.map
            (creditDebit req.source_account_id req.destination_account_id req.cash_amount)
         transactions := (db.transactions ++ [intentRow mlt req db]).map
            (markExecuted db.nextTransactionId now)
         nextAccountId := db.nextAccountId
         nextTransactionId := db.nextTransactionId + 1 },
        .ok { intentRow mlt req db with success := true, executed_time := some now },
        [req.source_account_id, req.destination_account_id]⟩ := by
  simp [process_transaction, h1, h2, recordIntent_accounts, h3, h4, h5, recordIntent,
    intentRow]

/-- Every failed call leaves exactly the state committed in step 1. -/
theorem pt_fail_db (mlt now : Nat) (ok : Bool) (req : CreateTransaction)
    (db : LedgerState) (e : TransferError)
    (h : (process_transaction mlt now ok req db).outcome = .fail e) :
    (process_transaction mlt now ok req db).db = recordIntent mlt req db := by
  by_cases h1 : req.cash_amount < 0
  · rw [pt_invalidAmount mlt now ok req db h1]
  · by_cases h2 : req.source_account_id = req.destination_account_id
    · rw [pt_sameAccount mlt now ok req db h1 h2]
    · cases h3 : findAccount db.accounts req.source_account_id with
      | none => rw [pt_sourceMissing mlt now ok req db h1 h2 h3]
      | some s =>
        cases h4 : findAccount db.accounts req.destination_account_id with
        | none => rw [pt_destMissing mlt now ok req db s h1 h2 h3 h4]
        | some d =>
          by_cases h5 : s.available_cash ≥ req.cash_amount
          · cases ok with
            | false => rw [pt_commitFault mlt now req db s d h1 h2 h3 h4 h5]
            | true =>
              rw [pt_success mlt now req db s d h1 h2 h3 h4 h5] at h
              exact absurd h (by simp)
          · rw [pt_insufficient mlt now ok req db s d h1 h2 h3 h4 h5]

/-- Every successful call took the success path: the returned record is the
executed intent row, and the committed state is the debited/credited one. -/
theorem pt_ok_inv (mlt now : Nat) (ok : Bool) (req : CreateTransaction)
    (db : LedgerState) (tx : TransactionModel)
    (h : (process_transaction mlt now ok req db).outcome = .ok tx) :
    tx = { intentRow mlt req db with success := true, executed_time := some now } ∧
    (process_transaction mlt now ok req db).db =
      { accounts := db.accounts.map
          (creditDebit req.source_account_id req.destination_account_id req.cash_amount)
        transactions := (db.transactions ++ [intentRow mlt req db]).map
          (markExecuted db.nextTransactionId now)
        nextAccountId := db.nextAccountId
        nextTransactionId := db.nextTransactionId + 1 } := by
  by_cases h1 : req.cash_amount < 0
  · rw [pt_invalidAmount mlt now ok req db h1] at h; exact absurd h (by simp)
  · by_cases h2 : req.source_account_id = req.destination_account_id
    · rw [pt_sameAccount mlt now ok req db h1 h2] at h; exact absurd h (by simp)
    · cases h3 : findAccount db.accounts req.source_account_id with
      | none =>
        rw [pt_sourceMissing mlt now ok req db h1 h2 h3] at h; exact absurd h (by simp)
      | some s =>
        cases h4 : findAccount db.accounts req.destination_account_id with
        | none =>
          rw [pt_destMissing mlt now ok req db s h1 h2 h3 h4] at h
          exact absurd h (by simp)
        | some d =>
          by_cases h5 : s.available_cash ≥ req.cash_amount
          · cases ok with
            | false =>
              rw [pt_commitFault mlt now req db s d h1 h2 h3 h4 h5] at h
              exact absurd h (by simp)
            | true =>
              rw [pt_success mlt now req db s d h1 h2 h3 h4 h5] at h ⊢
              refine ⟨?_, rfl⟩
              cases h
              rfl
          · rw [pt_insufficient mlt now ok req db s d h1 h2 h3 h4 h5] at h
            exact absurd h (by simp)

/-! ## List-level lemmas about lookups, balance sums and row updates -/

theorem creditDebit_id (src dst : Nat) (amt : Rat) (a : AccountModel) :
    (creditDebit src dst amt a).id = a.id := rfl

/-- `creditDebit` preserves ids, so it commutes with point lookup. -/
theorem findAccount_map_creditDebit (src dst x : Nat) (amt : Rat)
    (l : List AccountModel) :
    findAccount (l.map (creditDebit src dst amt)) x =
      (findAccount l x).map (creditDebit src dst amt) := by
  induction l with
  | nil => rfl
  | cons a t ih =>
    simp only [findAccount, List.map_cons, List.find?_cons] at *
    cases h : (a.id == x) with
    | true =>
      have h' : ((creditDebit src dst amt a).id == x) = true := h
      rw [h']
      simp
    | false =>
      have h' : ((creditDebit src dst amt a).id == x) = false := h
      rw [h']
      simpa using ih

/-- The id column of the mapped table is unchanged. -/
theorem map_id_map_creditDebit (src dst : Nat) (amt : Rat) (l : List AccountModel) :
    (l.map (creditDebit src dst amt)).map (fun a => a.id) = l.map (fun a => a.id) := by
  rw [List.map_map]
  rfl

/-- The account found by a successful lookup carries the id looked up. -/
theorem findAccount_id {l : List AccountModel} {x : Nat} {a : AccountModel}
    (h : findAccount l x = some a) : a.id = x := by
  have := List.find?_some h
  simpa using this

theorem findAccount_mem {l : List AccountModel} {x : Nat} {a : AccountModel}
    (h : findAccount l x = some a) : a ∈ l :=
  List.mem_of_find?_eq_some h

/-- With pairwise-distinct ids, two rows of the table with the same id are
the same row. -/
theorem eq_of_mem_of_id_eq {l : List AccountModel}
    (hnodup : (l.map (fun a => a.id)).Nodup) {a b : AccountModel}
    (ha : a ∈ l) (hb : b ∈ l) (h : a.id = b.id) : a = b :=
  List.inj_on_of_nodup_map hnodup ha hb h

/-- Exact effect of the debit/credit pass on the total cash column. -/
theorem cashSum_map_creditDebit (src dst : Nat) (hne : src ≠ dst) (amt : Rat)
    (l : List AccountModel) :
    cashSum (l.map (creditDebit src dst amt)) =
      cashSum l - (l.countP (fun a => a.id == src) : Rat) * amt
        + (l.countP (fun a => a.id == dst) : Rat) * amt := by
  induction l with
  | nil => simp [cashSum]
  | cons a t ih =>
    have hcd : ∀ b : AccountModel, (creditDebit src dst amt b).available_cash =
        if b.id = src then b.available_cash - amt
        else if b.id = dst then b.available_cash + amt
        else b.available_cash := fun _ => rfl
    simp only [cashSum, List.map_cons, List.sum_cons] at ih ⊢
    rw [ih, hcd]
    by_cases hs : a.id = src
    · have hd : ¬ a.id = dst := fun hdd => hne (hs ▸ hdd)
      have e1 : List.countP (fun b => b.id == src) (a :: t) =
          List.countP (fun b => b.id == src) t + 1 := by
        simp [List.countP_cons, hs]
      have e2 : List.countP (fun b => b.id == dst) (a :: t) =
          List.countP (fun b => b.id == dst) t := by
        simp [List.countP_cons, hd]
      rw [if_pos hs, e1, e2]
      push_cast
      ring
    · by_cases hd : a.id = dst
      · have e1 : List.countP (fun b => b.id == src) (a :: t) =
            List.countP (fun b => b.id == src) t := by
          simp [List.countP_cons, hs]
        have e2 : List.countP (fun b => b.id == dst) (a :: t) =
            List.countP (fun b => b.id == dst) t + 1 := by
          simp [List.countP_cons, hd]
        rw [if_neg hs, if_pos hd, e1, e2]
        push_cast
        ring
      · have e1 : List.countP (fun b => b.id == src) (a :: t) =
            List.countP (fun b => b.id == src) t := by
          simp [List.countP_cons, hs]
        have e2 : List.countP (fun b => b.id == dst) (a :: t) =
            List.countP (fun b => b.id == dst) t := by
          simp [List.countP_cons, hd]
        rw [if_neg hs, if_neg hd, e1, e2]
        ring

/-- With pairwise-distinct ids, a found account is counted exactly once. -/
theorem countP_id_eq_one (l : List AccountModel) (x : Nat)
    (hnodup : (l.map (fun a => a.id)).Nodup) (a : AccountModel)
    (hfind : findAccount l x = some a) :
    l.countP (fun b => b.id == x) = 1 := by
  have hmem : a ∈ l := findAccount_mem hfind
  have hax : a.id = x := findAccount_id hfind
  have hxmem : x ∈ l.map (fun b => b.id) := by
    rw [← hax]
    exact List.mem_map_of_mem _ hmem
  have hcount : (l.map (fun b => b.id)).count x = 1 :=
    List.count_eq_one_of_mem hnodup hxmem
  calc l.countP (fun b => b.id == x)
      = (l.map (fun b => b.id)).countP (fun i => i == x) := by
        rw [List.countP_map]
        rfl
    _ = (l.map (fun b => b.id)).count x := rfl
    _ = 1 := hcount

/-- Marking a fresh id executed touches no existing row. -/
theorem map_markExecuted_of_fresh (txId now : Nat) (l : List TransactionModel)
    (h : ∀ t ∈ l, t.id ≠ txId) : l.map (markExecuted txId now) = l := by
  have hfix : ∀ t ∈ l, markExecuted txId now t = id t := by
    intro t ht
    unfold markExecuted
    rw [if_neg (h t ht)]
    rfl
  rw [List.map_congr_left hfix, List.map_id]

theorem runTransfers_nil (mlt : Nat) (db : LedgerState) :
    runTransfers mlt [] db = db := rfl

theorem runTransfers_cons (mlt : Nat) (s : Nat × Bool × CreateTransaction)
    (t : List (Nat × Bool × CreateTransaction)) (db : LedgerState) :
    runTransfers mlt (s :: t) db =
      runTransfers mlt t (process_transaction mlt s.1 s.2.1 s.2.2 db).db := rfl

/-- One call preserves both primary-key integrity and non-negativity of all
committed balances. -/
theorem pt_preserves_inv (mlt now : Nat) (ok : Bool) (req : CreateTransaction)
    (db : LedgerState) (hnodup : AccountIdsNodup db)
    (hpos : ∀ a ∈ db.accounts, 0 ≤ a.available_cash) :
    AccountIdsNodup (process_transaction mlt now ok req db).db ∧
    ∀ a ∈ (process_transaction mlt now ok req db).db.accounts, 0 ≤ a.available_cash := by
  cases hout : (process_transaction mlt now ok req db).outcome with
  | fail e =>
    rw [pt_fail_db mlt now ok req db e hout]
    exact ⟨hnodup, hpos⟩
  | ok tx =>
    obtain ⟨-, hdb⟩ := pt_ok_inv mlt now ok req db tx hout
    rw [hdb]
    constructor
    · show (List.map _ (db.accounts.map _)).Nodup
      rw [map_id_map_creditDebit]
      exact hnodup
    · intro a' ha'
      obtain ⟨a, ha, rfl⟩ := List.mem_map.mp ha'
      -- recover the guards of the success path
      have h1 : ¬ req.cash_amount < 0 := by
        intro hneg
        rw [pt_invalidAmount mlt now ok req db hneg] at hout
        exact absurd hout (by simp)
      have hamt : 0 ≤ req.cash_amount := not_lt.mp h1
      have hcd : (creditDebit req.source_account_id req.destination_account_id
          req.cash_amount a).available_cash =
          if a.id = req.source_account_id then a.available_cash - req.cash_amount
          else if a.id = req.destination_account_id then a.available_cash + req.cash_amount
          else a.available_cash := rfl
      rw [hcd]
      by_cases hsrc : a.id = req.source_account_id
      · rw [if_pos hsrc]
        -- a is the (unique) source row, which passed the funds check
        by_cases h2 : req.source_account_id = req.destination_account_id
        · rw [pt_sameAccount mlt now ok req db h1 h2] at hout
          exact absurd hout (by simp)
        · cases h3 : findAccount db.accounts req.source_account_id with
          | none =>
            rw [pt_sourceMissing mlt now ok req db h1 h2 h3] at hout
            exact absurd hout (by simp)
          | some s =>
            cases h4 : findAccount db.accounts req.destination_account_id with
            | none =>
              rw [pt_destMissing mlt now ok req db s h1 h2 h3 h4] at hout
              exact absurd hout (by simp)
            | some d =>
              by_cases h5 : s.available_cash ≥ req.cash_amount
              · have : a = s :=
                  eq_of_mem_of_id_eq hnodup ha (findAccount_mem h3)
                    (by rw [hsrc, findAccount_id h3])
                subst this
                linarith
              · rw [pt_insufficient mlt now ok req db s d h1 h2 h3 h4 h5] at hout
                exact absurd hout (by simp)
      · rw [if_neg hsrc]
        by_cases hdst : a.id = req.destination_account_id
        · rw [if_pos hdst]
          have := hpos a ha
          linarith
        · rw [if_neg hdst]
          exact hpos a ha

/-! ## Claims -/

/-- C1: for every transfer request with positive amount, distinct existing
source and destination accounts, and sufficient source balance, the call
succeeds, the source balance decreases by exactly the amount, the destination
balance increases by exactly the amount (hence the sum of all balances is
unchanged), and the returned Transaction record has `success = true` and
`executed_time` set. -/
theorem C1_successful_transfer (mlt now : Nat) (req : CreateTransaction)
    (db : LedgerState) (srcAcc dstAcc : AccountModel)
    (hnodup : AccountIdsNodup db)
    (hamt : 0 < req.cash_amount)
    (hne : req.source_account_id ≠ req.destination_account_id)
    (hs : findAccount db.accounts req.source_account_id = some srcAcc)
    (hd : findAccount db.accounts req.destination_account_id = some dstAcc)
    (hsuff : srcAcc.available_cash ≥ req.cash_amount) :
    (∃ tx, (process_transaction mlt now true req db).outcome = .ok tx ∧
      tx.success = true ∧ tx.executed_time = some now) ∧
    getBalance (process_transaction mlt now true req db).db req.source_account_id =
      some (srcAcc.available_cash - req.cash_amount) ∧
    getBalance (process_transaction mlt now true req db).db req.destination_account_id =
      some (dstAcc.available_cash + req.cash_amount) ∧
    totalBalance (process_transaction mlt now true req db).db = totalBalance db := by
  have h1 : ¬ req.cash_amount < 0 := not_lt.mpr (le_of_lt hamt)
  rw [pt_success mlt now req db srcAcc dstAcc h1 hne hs hd hsuff]
  refine ⟨⟨_, rfl, rfl, rfl⟩, ?_, ?_, ?_⟩
  · show (Option.map _ (findAccount (db.accounts.map _) req.source_account_id)) = _
    rw [findAccount_map_creditDebit, hs]
    have hid : srcAcc.id = req.source_account_id := findAccount_id hs
    show some (if srcAcc.id = req.source_account_id then _ else _) = _
    rw [if_pos hid]
  · show (Option.map _ (findAccount (db.accounts.map _) req.destination_account_id)) = _
    rw [findAccount_map_creditDebit, hd]
    have hid : dstAcc.id = req.destination_account_id := findAccount_id hd
    have hnid : ¬ dstAcc.id = req.source_account_id := by
      rw [hid]
      exact fun hdd => hne hdd.symm
    show some (if dstAcc.id = req.source_account_id then _
      else if dstAcc.id = req.destination_account_id then _ else _) = _
    rw [if_neg hnid, if_pos hid]
  · show cashSum (db.accounts.map _) = cashSum db.accounts
    rw [cashSum_map_creditDebit _ _ hne _ db.accounts,
      countP_id_eq_one db.accounts _ hnodup srcAcc hs,
      countP_id_eq_one db.accounts _ hnodup dstAcc hd]
    push_cast
    ring

/-- C1 witness: spec scenario 1, transfer 200 from A(1000) to B(500). -/
theorem C1_witness :
    (∃ tx, (process_transaction 0 5 true ⟨200, 1, 2⟩ demoDb).outcome = .ok tx ∧
      tx.success = true ∧ tx.executed_time = some 5) ∧
    getBalance (process_transaction 0 5 true ⟨200, 1, 2⟩ demoDb).db 1 =
      some ((1000 : Rat) - 200) ∧
    getBalance (process_transaction 0 5 true ⟨200, 1, 2⟩ demoDb).db 2 =
      some ((500 : Rat) + 200) ∧
    totalBalance (process_transaction 0 5 true ⟨200, 1, 2⟩ demoDb).db =
      totalBalance demoDb :=
  C1_successful_transfer 0 5 ⟨200, 1, 2⟩ demoDb
    { id := 1, name := "A", available_cash := 1000 }
    { id := 2, name := "B", available_cash := 500 }
    (by decide) (by decide) (by decide) (by decide) (by decide) (by decide)

/-- C2: from any committed state with pairwise-distinct account ids and all
balances nonnegative, any sequence of transfer calls — successful or failed,
with any per-call clocks and commit fates — leaves every committed balance
nonnegative. -/
theorem C2_balances_stay_nonneg (mlt : Nat)
    (steps : List (Nat × Bool × CreateTransaction)) (db : LedgerState)
    (hnodup : AccountIdsNodup db)
    (hpos : ∀ a ∈ db.accounts, 0 ≤ a.available_cash) :
    ∀ a ∈ (runTransfers mlt steps db).accounts, 0 ≤ a.available_cash := by
  induction steps generalizing db with
  | nil => exact hpos
  | cons s t ih =>
    obtain ⟨hn, hp⟩ := pt_preserves_inv mlt s.1 s.2.1 s.2.2 db hnodup hpos
    rw [runTransfers_cons]
    exact ih _ hn hp

/-- C2 witness: a successful transfer, a commit fault, a rejected negative
amount and an insufficient-funds rejection, in sequence. -/
theorem C2_witness :
    AccountIdsNodup demoDb ∧ (∀ a ∈ demoDb.accounts, 0 ≤ a.available_cash) ∧
    ∀ a ∈ (runTransfers 0
        [(5, true, ⟨200, 1, 2⟩), (6, false, ⟨100, 2, 1⟩),
         (7, true, ⟨-50, 1, 2⟩), (8, true, ⟨5000, 1, 2⟩)] demoDb).accounts,
      0 ≤ a.available_cash :=
  ⟨by decide, by decide,
    C2_balances_stay_nonneg 0
      [(5, true, ⟨200, 1, 2⟩), (6, false, ⟨100, 2, 1⟩),
       (7, true, ⟨-50, 1, 2⟩), (8, true, ⟨5000, 1, 2⟩)] demoDb
      (by decide) (by decide)⟩

/-- C3: every call persists exactly one new Transaction row — the step-1
intent row, committed before any validation — carrying the supplied amount,
source id and destination id exactly as given, with `success = false` and
`executed_time` unset; the row persists on every path, and on failure paths
it is exactly the appended intent row, untouched. -/
theorem C3_intent_row_persisted (mlt now : Nat) (ok : Bool)
    (req : CreateTransaction) (db : LedgerState) (hfresh : TxIdsFresh db) :
    (intentRow mlt req db).success = false ∧
    (intentRow mlt req db).executed_time = none ∧
    (intentRow mlt req db).cash_amount = req.cash_amount ∧
    (intentRow mlt req db).source_account_id = req.source_account_id ∧
    (intentRow mlt req db).destination_account_id = req.destination_account_id ∧
    (process_transaction mlt now ok req db).db.transactions.length =
      db.transactions.length + 1 ∧
    (∀ e, (process_transaction mlt now ok req db).outcome = .fail e →
      (process_transaction mlt now ok req db).db.transactions =
        db.transactions ++ [intentRow mlt req db]) ∧
    (∀ tx, (process_transaction mlt now ok req db).outcome = .ok tx →
      (process_transaction mlt now ok req db).db.transactions =
        db.transactions ++
          [{ intentRow mlt req db with success := true, executed_time := some now }]) := by
  have hmap : (db.transactions ++ [intentRow mlt req db]).map
      (markExecuted db.nextTransactionId now) =
      db.transactions ++
        [{ intentRow mlt req db with success := true, executed_time := some now }] := by
    rw [List.map_append,
      map_markExecuted_of_fresh db.nextTransactionId now db.transactions
        (fun t ht => Nat.ne_of_lt (hfresh t ht))]
    show db.transactions ++ [markExecuted db.nextTransactionId now (intentRow mlt req db)] = _
    unfold markExecuted
    rw [if_pos (show (intentRow mlt req db).id = db.nextTransactionId from rfl)]
  refine ⟨rfl, rfl, rfl, rfl, rfl, ?_, ?_, ?_⟩
  · cases hout : (process_transaction mlt now ok req db).outcome with
    | fail e =>
      rw [pt_fail_db mlt now ok req db e hout]
      simp [recordIntent]
    | ok tx =>
      obtain ⟨-, hdb⟩ := pt_ok_inv mlt now ok req db tx hout
      rw [hdb]
      show ((db.transactions ++ [intentRow mlt req db]).map _).length = _
      rw [hmap]
      simp
  · intro e hout
    rw [pt_fail_db mlt now ok req db e hout]
    rfl
  · intro tx hout
    obtain ⟨-, hdb⟩ := pt_ok_inv mlt now ok req db tx hout
    rw [hdb]
    exact hmap

/-- C3 witness: a rejected same-account request still persists its intent row. -/
theorem C3_witness :
    TxIdsFresh demoDb ∧
    ((intentRow 0 ⟨100, 1, 1⟩ demoDb).success = false ∧
     (intentRow 0 ⟨100, 1, 1⟩ demoDb).executed_time = none ∧
     (intentRow 0 ⟨100, 1, 1⟩ demoDb).cash_amount = 100 ∧
     (intentRow 0 ⟨100, 1, 1⟩ demoDb).source_account_id = 1 ∧
     (intentRow 0 ⟨100, 1, 1⟩ demoDb).destination_account_id = 1 ∧
     (process_transaction 0 7 true ⟨100, 1, 1⟩ demoDb).db.transactions.length =
       demoDb.transactions.length + 1 ∧
     (∀ e, (process_transaction 0 7 true ⟨100, 1, 1⟩ demoDb).outcome = .fail e →
       (process_transaction 0 7 true ⟨100, 1, 1⟩ demoDb).db.transactions =
         demoDb.transactions ++ [intentRow 0 ⟨100, 1, 1⟩ demoDb]) ∧
     (∀ tx, (process_transaction 0 7 true ⟨100, 1, 1⟩ demoDb).outcome = .ok tx →
       (process_transaction 0 7 true ⟨100, 1, 1⟩ demoDb).db.transactions =
         demoDb.transactions ++
           [{ intentRow 0 ⟨100, 1, 1⟩ demoDb with
               success := true, executed_time := some 7 }])) :=
  ⟨by decide, C3_intent_row_persisted 0 7 true ⟨100, 1, 1⟩ demoDb (by decide)⟩

/-- C4: on every failure path — InvalidAmount, SameAccount, SourceNotFound,
DestinationNotFound, InsufficientFunds, and a storage fault during the final
commit — the committed account table is exactly what it was before the call,
and the step-1 intent row remains persisted with `success = false` and
`executed_time` unset. -/
theorem C4_failure_leaves_balances (mlt now : Nat) (ok : Bool)
    (req : CreateTransaction) (db : LedgerState) (e : TransferError)
    (hfail : (process_transaction mlt now ok req db).outcome = .fail e) :
    (process_transaction mlt now ok req db).db.accounts = db.accounts ∧
    (process_transaction mlt now ok req db).db.transactions =
      db.transactions ++ [intentRow mlt req db] ∧
    (intentRow mlt req db).success = false ∧
    (intentRow mlt req db).executed_time = none := by
  have h := pt_fail_db mlt now ok req db e hfail
  rw [h]
  exact ⟨rfl, rfl, rfl, rfl⟩

/-- C4 witness: spec scenario 2 — transfer 1500 from A(1000) to B is rejected
for insufficient funds, balances unchanged, intent row recorded. -/
theorem C4_witness :
    (process_transaction 0 7 true ⟨1500, 1, 2⟩ demoDb).outcome =
      .fail .InsufficientFunds ∧
    ((process_transaction 0 7 true ⟨1500, 1, 2⟩ demoDb).db.accounts =
      demoDb.accounts ∧
    (process_transaction 0 7 true ⟨1500, 1, 2⟩ demoDb).db.transactions =
      demoDb.transactions ++ [intentRow 0 ⟨1500, 1, 2⟩ demoDb] ∧
    (intentRow 0 ⟨1500, 1, 2⟩ demoDb).success = false ∧
    (intentRow 0 ⟨1500, 1, 2⟩ demoDb).executed_time = none) :=
  ⟨by decide,
    C4_failure_leaves_balances 0 7 true ⟨1500, 1, 2⟩ demoDb .InsufficientFunds (by decide)⟩

/-- C5, evaluated on the code: the validation in `app/main.py` is
`if transaction.cash_amount < 0`, so a request with amount exactly 0 between
two distinct existing accounts is NOT rejected with InvalidAmount — it
executes, committing a record with `success = true` and `executed_time` set,
although the code's own error message demands a positive amount and the spec
demands rejection of every amount ≤ 0. -/
theorem C5_zero_amount_not_rejected :
    (process_transaction 0 7 true ⟨0, 1, 2⟩ demoDb).outcome =
      .ok { id := 0, cash_amount := 0, source_account_id := 1,
            destination_account_id := 2, registered_time := 0,
            executed_time := some 7, success := true } ∧
    (process_transaction 0 7 true ⟨0, 1, 2⟩ demoDb).outcome ≠
      .fail .InvalidAmount := by
  decide

/-- The check-order decision of the spec's ProcessTransfer steps, with the
amount test as the code implements it (`cash_amount < 0`; zero passes):
amount first, then same-account, then source lookup, then destination
lookup, then the funds check, then the commit fate. -/
def firstFailingCheck (commitOk : Bool) (req : CreateTransaction)
    (accounts : List AccountModel) : Option TransferError :=
  if req.cash_amount < 0 then some .InvalidAmount
  else if req.source_account_id = req.destination_account_id then some .SameAccount
  else
    match findAccount accounts req.source_account_id with
    | none => some .SourceNotFound
    | some s =>
      match findAccount accounts req.destination_account_id with
      | none => some .DestinationNotFound
      | some _ =>
        if s.available_cash ≥ req.cash_amount then
          if commitOk then none else some .InternalError
        else some .InsufficientFunds

/-- The error component of an outcome, if any. -/
def failureOf : Outcome → Option TransferError
  | .ok _ => none
  | .fail e => some e

/-- C6 counterexample: a request with amount 0 — an invalid amount under the
spec's `amount ≤ 0` test — and source equal to destination is rejected as
SameAccount, not InvalidAmount, because the code's amount check lets 0 pass. -/
theorem C6_counterexample :
    (process_transaction 0 7 true ⟨0, 1, 1⟩ demoDb).outcome = .fail .SameAccount ∧
    (process_transaction 0 7 true ⟨0, 1, 1⟩ demoDb).outcome ≠ .fail .InvalidAmount := by
  decide

/-- C6 as amended: the checks are evaluated in the fixed order amount
(negative only), same-account, source existence, destination existence,
funds, commit fate, and the call's error is that of the first failing check:
for every call, the failure component of the outcome equals
`firstFailingCheck`.  In particular a request naming two nonexistent accounts
yields SourceNotFound, and a negative-amount request with equal accounts
yields InvalidAmount. -/
theorem C6_check_order (mlt now : Nat) (ok : Bool) (req : CreateTransaction)
    (db : LedgerState) :
    failureOf (process_transaction mlt now ok req db).outcome =
      firstFailingCheck ok req db.accounts := by
  by_cases h1 : req.cash_amount < 0
  · rw [pt_invalidAmount mlt now ok req db h1]
    simp [firstFailingCheck, failureOf, h1]
  · by_cases h2 : req.source_account_id = req.destination_account_id
    · rw [pt_sameAccount mlt now ok req db h1 h2]
      simp [firstFailingCheck, failureOf, h1, h2]
    · cases h3 : findAccount db.accounts req.source_account_id with
      | none =>
        rw [pt_sourceMissing mlt now ok req db h1 h2 h3]
        simp [firstFailingCheck, failureOf, h1, h2, h3]
      | some s =>
        cases h4 : findAccount db.accounts req.destination_account_id with
        | none =>
          rw [pt_destMissing mlt now ok req db s h1 h2 h3 h4]
          simp [firstFailingCheck, failureOf, h1, h2, h3, h4]
        | some d =>
          by_cases h5 : s.available_cash ≥ req.cash_amount
          · cases ok with
            | false =>
              rw [pt_commitFault mlt now req db s d h1 h2 h3 h4 h5]
              simp [firstFailingCheck, failureOf, h1, h2, h3, h4, h5]
            | true =>
              rw [pt_success mlt now req db s d h1 h2 h3 h4 h5]
              simp [firstFailingCheck, failureOf, h1, h2, h3, h4, h5]
          · rw [pt_insufficient mlt now ok req db s d h1 h2 h3 h4 h5]
            simp [firstFailingCheck, failureOf, h1, h2, h3, h4, h5]

/-- C7, evaluated on the code: `registered_time` is not the time the attempt
is recorded.  The column default `datetime.now()` is evaluated once at module
load, so two transfers recorded at different call times (5 and 9) both carry
`registered_time` equal to the module-load instant (0) — identical, where the
claim requires them to differ. -/
theorem C7_registered_time_is_load_constant :
    ((process_transaction 0 9 true ⟨50, 3, 4⟩
        (process_transaction 0 5 true ⟨200, 1, 2⟩ demoDb4).db).db.transactions.map
      (fun t => (t.registered_time, t.success))) = [(0, true), (0, true)] := by
  decide

/-- C8 counterexample: for a request whose source id (2) exceeds its
destination id (1), the row locks are acquired source first — [2, 1], not in
ascending canonical order [1, 2]. -/
theorem C8_counterexample :
    (process_transaction 0 7 true ⟨100, 2, 1⟩ demoDb).locks = [2, 1] ∧
    (process_transaction 0 7 true ⟨100, 2, 1⟩ demoDb).locks ≠ [1, 2] := by
  decide

/-- C8 as amended: whenever both lookups are reached and succeed, the locks
are acquired in request order — the source account always first, the
destination account second, regardless of which id is lower. -/
theorem C8_locks_in_request_order (mlt now : Nat) (ok : Bool)
    (req : CreateTransaction) (db : LedgerState) (s d : AccountModel)
    (h1 : ¬ req.cash_amount < 0)
    (h2 : req.source_account_id ≠ req.destination_account_id)
    (hs : findAccount db.accounts req.source_account_id = some s)
    (hd : findAccount db.accounts req.destination_account_id = some d) :
    (process_transaction mlt now ok req db).locks =
      [req.source_account_id, req.destination_account_id] := by
  by_cases h5 : s.available_cash ≥ req.cash_amount
  · cases ok with
    | false => rw [pt_commitFault mlt now req db s d h1 h2 hs hd h5]
    | true => rw [pt_success mlt now req db s d h1 h2 hs hd h5]
  · rw [pt_insufficient mlt now ok req db s d h1 h2 hs hd h5]

/-- C8 witness: transferring from account 2 to account 1 locks 2 before 1. -/
theorem C8_witness :
    (process_transaction 0 11 true ⟨40, 2, 1⟩ demoDb).locks = [2, 1] :=
  C8_locks_in_request_order 0 11 true ⟨40, 2, 1⟩ demoDb
    { id := 2, name := "B", available_cash := 500 }
    { id := 1, name := "A", available_cash := 1000 }
    (by decide) (by decide) (by decide) (by decide)

/-- C9: a transfer of exactly 0 between two distinct existing accounts whose
source balance is nonnegative executes successfully — the outcome is a
Transaction with `success = true` and `executed_time` set — and the committed
account table is left exactly as it was (a 0 transfer is the identity on
balances). -/
theorem C9_zero_transfer_identity (mlt now : Nat) (req : CreateTransaction)
    (db : LedgerState) (srcAcc dstAcc : AccountModel)
    (h0 : req.cash_amount = 0)
    (hne : req.source_account_id ≠ req.destination_account_id)
    (hs : findAccount db.accounts req.source_account_id = some srcAcc)
    (hd : findAccount db.accounts req.destination_account_id = some dstAcc)
    (hpos : 0 ≤ srcAcc.available_cash) :
    (∃ tx, (process_transaction mlt now true req db).outcome = .ok tx ∧
      tx.success = true ∧ tx.executed_time = some now) ∧
    (process_transaction mlt now true req db).db.accounts = db.accounts := by
  have h1 : ¬ req.cash_amount < 0 := by
    rw [h0]
    exact lt_irrefl 0
  have h5 : srcAcc.available_cash ≥ req.cash_amount := by
    rw [h0]
    exact hpos
  rw [pt_success mlt now req db srcAcc dstAcc h1 hne hs hd h5]
  refine ⟨⟨_, rfl, rfl, rfl⟩, ?_⟩
  show db.accounts.map
    (creditDebit req.source_account_id req.destination_account_id req.cash_amount) =
    db.accounts
  have hfix : ∀ a ∈ db.accounts,
      creditDebit req.source_account_id req.destination_account_id req.cash_amount a =
        id a := by
    intro a _
    show ({ a with available_cash :=
      if a.id = req.source_account_id then a.available_cash - req.cash_amount
      else if a.id = req.destination_account_id then a.available_cash + req.cash_amount
      else a.available_cash } : AccountModel) = a
    rw [h0]
    split_ifs <;> simp
  rw [List.map_congr_left hfix, List.map_id]

/-- C9 witness: a 0 transfer from A to B succeeds and changes nothing. -/
theorem C9_witness :
    (∃ tx, (process_transaction 0 11 true ⟨0, 1, 2⟩ demoDb).outcome = .ok tx ∧
      tx.success = true ∧ tx.executed_time = some 11) ∧
    (process_transaction 0 11 true ⟨0, 1, 2⟩ demoDb).db.accounts =
      demoDb.accounts :=
  C9_zero_transfer_identity 0 11 ⟨0, 1, 2⟩ demoDb
    { id := 1, name := "A", available_cash := 1000 }
    { id := 2, name := "B", available_cash := 500 }
    (by decide) (by decide) (by decide) (by decide) (by decide)

/-- C10: `create_account` performs no validation of `available_cash` — a
request carrying a negative balance is committed as-is, so the committed
state then contains an account with a negative balance. -/
theorem C10_create_account_accepts_negative :
    ∃ a ∈ (create_account ⟨"overdrawn", -100⟩ demoDb).accounts,
      a.available_cash < 0 := by
  decide
